import Mathlib

/-!
Verification of the voxel chunk pipeline (spatial registry, chunk flags,
discovery processing, generator and mesher) against its specification.

The development is a shallow embedding of the Rust sources:
machine `u32` arithmetic is modelled as `Nat` with explicit wrapping
(release-mode overflow semantics), `i32` arithmetic as `Int` with Rust's
truncating division (`Int.tdiv` / `Int.tmod`), `f32`/`f64` constants that
the claims depend on are exact and modelled in `ℚ`, and fallible
operations (index-out-of-range writes) return `Option`.
-/

namespace VoxelCheck

/-! ### Machine arithmetic: wrapping `u32` operations -/

/-- The modulus `2^32` of `u32` arithmetic. -/
def U32LIM : Nat := 4294967296

/-- Wrapping `u32` addition (release-mode `+`). -/
def wadd (a b : Nat) : Nat := (a + b) % U32LIM

/-- Wrapping `u32` multiplication (release-mode `*`). -/
def wmul (a b : Nat) : Nat := (a * b) % U32LIM

/-- Wrapping `u32` subtraction (release-mode `-`); for `a b < 2^32` this is
two's-complement wraparound. -/
def wsub (a b : Nat) : Nat := (a + (U32LIM - b % U32LIM)) % U32LIM

/-! ### Spatial registry linearization (`src/chunk/registry.rs`)

`Coordinates` is the two-component world coordinate `(x, z)`; chunk ids are
`i32`.  Rust's `/` and `%` on `i32` truncate toward zero, which is
`Int.tdiv` / `Int.tmod` here. -/

/-- World coordinate, `registry.rs` `Coordinates(pub i32, pub i32)`. -/
structure Coordinates where
  x : Int
  z : Int
deriving DecidableEq, Repr

/-- Constant `ChunkRegistry::CHUNK_SIZE`. -/
def CHUNK_SIZE : Int := 16

/-- Constant `ChunkRegistry::CHUNK_GRID_SIZE`. -/
def CHUNK_GRID_SIZE : Int := 1024

/-- Source `ChunkRegistry::domain_to_id`:
`(x / CHUNK_SIZE) * CHUNK_GRID_SIZE + z / CHUNK_SIZE` in `i32` arithmetic. -/
def domain_to_id (c : Coordinates) : Int :=
  (Int.tdiv c.x CHUNK_SIZE) * CHUNK_GRID_SIZE + Int.tdiv c.z CHUNK_SIZE

/-- Source `ChunkRegistry::id_to_domain`:
`[(id / CHUNK_GRID_SIZE) * CHUNK_SIZE, (id % CHUNK_GRID_SIZE) * CHUNK_SIZE]`. -/
def id_to_domain (id : Int) : Coordinates :=
  ⟨(Int.tdiv id CHUNK_GRID_SIZE) * CHUNK_SIZE, (Int.tmod id CHUNK_GRID_SIZE) * CHUNK_SIZE⟩

/-! ### Voxels (`src/chunk/voxel.rs`) -/

/-- Type `bevy::prelude::Color`, restricted to the RGBA data the claims need;
components are exact rationals (all colors involved are exact in `f32`). -/
structure Color where
  r : ℚ
  g : ℚ
  b : ℚ
  a : ℚ
deriving DecidableEq, Repr

/-- Value of `Color::default()` in bevy: `Color::WHITE`, opaque white. -/
def Color.white : Color := ⟨1, 1, 1, 1⟩

/-- Struct `Voxel { color, is_solid, size }` from `voxel.rs`. -/
structure Voxel where
  color : Color
  is_solid : Bool
  size : ℚ
deriving DecidableEq, Repr

/-- Accessor `Voxel::is_solid()`. -/
def Voxel.isSolid (v : Voxel) : Bool := v.is_solid

/-- Value of `Voxel::default()`: the struct derives `Default`, so every field takes its
own default — `Color::default()` is bevy's opaque white, `bool` default is
`false`, and the `f32` default for `size` is `0.0`. -/
def Voxel.default : Voxel := { color := Color.white, is_solid := false, size := 0 }

/-- The fill voxel `generate_voxels` starts from
(`generation.rs` lines 18–25): transparent black, non-solid, size `1.0`. -/
def generation_fill_voxel : Voxel :=
  { color := ⟨0, 0, 0, 0⟩, is_solid := false, size := 1 }

/-- Source `Chunk::new` fills the buffer with `width * height * depth` (computed in
`u32`) copies of `Voxel::default()` (`chunk.rs` lines 119–136). -/
def chunk_new_voxels (width height depth : Nat) : List Voxel :=
  List.replicate (wmul (wmul width height) depth) Voxel.default

/-! ### Mesher (`src/chunk/mesh.rs`) -/

/-- Enum `VoxelFace` from `chunk.rs`. -/
inductive VoxelFace where
  | Front
  | Back
  | Left
  | Right
  | Up
  | Down
deriving DecidableEq, Repr

/-- Struct `MeshSettings` (`chunk/mod.rs`). -/
structure MeshSettings where
  occlusion_culling : Bool
deriving DecidableEq, Repr

/-- The neighbor cell across a face, `mesh.rs` lines 174–181 and 200–207
(identical `match` in `get_voxel_face` and `check_occluded_with_adjacents`).
Computed in `u32`, so the `- 1` arms wrap at zero. -/
def face_neighbor (x y z : Nat) (face : VoxelFace) : Nat × Nat × Nat :=
  match face with
  | .Front => (x, y, wadd z 1)
  | .Back => (x, y, wsub z 1)
  | .Left => (wsub x 1, y, z)
  | .Right => (wadd x 1, y, z)
  | .Up => (x, wadd y 1, z)
  | .Down => (x, wsub y 1, z)

/-- Source `get_voxel_face` (`mesh.rs` lines 165–189).  The bounds guard checks only
`nx < width && ny < height`; the index is `nx + ny*width + nz*width*height`
in `u32`.  The `depth` component of the dimension triple is ignored by the
source (`(width, height, _)`). -/
def get_voxel_face (voxels : List Voxel) (x y z : Nat) (face : VoxelFace)
    (width height : Nat) : Option Voxel :=
  let n := face_neighbor x y z face
  if n.1 < width ∧ n.2.1 < height then
    voxels.get? (wadd (wadd n.1 (wmul n.2.1 width)) (wmul (wmul n.2.2 width) height))
  else
    none

/-- The slot of the adjacent-chunk buffer consulted per face,
`mesh.rs` lines 221–228. -/
def adjacent_slot (face : VoxelFace) : Nat :=
  match face with
  | .Back => 0
  | .Front => 1
  | .Right => 2
  | .Left => 3
  | .Up => 4
  | .Down => 5

/-- The index into the adjacent chunk's buffer, `mesh.rs` lines 232–239,
with every `+`, `-`, `*` wrapping in `u32`. -/
def adjacent_index (x y z nx ny nz width height : Nat) (face : VoxelFace) : Nat :=
  match face with
  | .Front =>
      wadd (wadd (wsub (wsub (wsub width 1) x) nx) (wmul (wadd y ny) width))
        (wmul (wmul z width) height)
  | .Back =>
      wadd (wadd (wadd x nx) (wmul (wadd y ny) width))
        (wmul (wmul (wsub (wsub (wsub height 1) z) nz) width) height)
  | .Left =>
      wadd (wadd (wadd z nz) (wmul (wadd y ny) width))
        (wmul (wmul (wsub (wsub (wsub width 1) x) nx) width) height)
  | .Right =>
      wadd (wadd (wadd z nz) (wmul (wadd y ny) width))
        (wmul (wmul x width) height)
  | .Up =>
      wadd (wadd (wadd z nz) (wmul y width))
        (wmul (wmul (wadd x nx) width) height)
  | .Down =>
      wadd (wadd (wadd z nz) (wmul (wsub (wsub (wsub width 1) y) ny) width))
        (wmul (wmul (wadd x nx) width) height)

/-- Source `check_occluded_with_adjacents` (`mesh.rs` lines 190–251).  Returns
`true` when the face is NOT occluded (i.e. must be kept).  The in-chunk
branch is taken whenever `nx < width && ny < height` — the guard never
tests `nz` against `depth`. -/
def check_occluded_with_adjacents (voxels : List Voxel)
    (adjacents : List (List Voxel)) (x y z : Nat) (face : VoxelFace)
    (width height : Nat) : Bool :=
  let n := face_neighbor x y z face
  if n.1 < width ∧ n.2.1 < height then
    ((voxels.get? (wadd (wadd n.1 (wmul n.2.1 width)) (wmul (wmul n.2.2 width) height))).filter
        Voxel.isSolid).isNone
  else
    match adjacents.get? (adjacent_slot face) with
    | some adj_voxels =>
        if ((adj_voxels.get? (adjacent_index x y z n.1 n.2.1 n.2.2 width height face)).filter
              Voxel.isSolid).isSome then
          false
        else
          true
    | none => true

/-- The face order of `voxel_faces` in `mesh` (`mesh.rs` lines 72–79). -/
def voxel_faces : List VoxelFace :=
  [.Back, .Right, .Front, .Left, .Up, .Down]

/-- Condition `fully_occluded` in `mesh` (`mesh.rs` lines 81–85): every one of the six
faces has an in-chunk neighbor that exists and is solid. -/
def fully_occluded (voxels : List Voxel) (x y z width height : Nat) : Bool :=
  voxel_faces.all fun face =>
    ((get_voxel_face voxels x y z face width height).filter Voxel.isSolid).isSome

/-- The per-voxel triangle-index template (`mesh.rs` lines 115–122), one
six-entry block per face, parallel to `voxel_faces`. -/
def cube_indices : List (List Nat) :=
  [[0, 2, 1, 0, 3, 2], [1, 6, 5, 1, 2, 6], [5, 7, 4, 5, 6, 7],
   [4, 3, 0, 4, 7, 3], [3, 6, 2, 3, 7, 6], [4, 1, 5, 4, 0, 1]]

/-- The body of the triple loop of `mesh` for one cell `(x, y, z)`
(`mesh.rs` lines 67–146): `none` when the cell emits nothing (missing,
non-solid, or fully occluded — the fully-occluded `continue` happens before
and independently of `settings.occlusion_culling`), otherwise the index
block: the faces kept by the `!settings.occlusion_culling || check_occluded…`
filter, offset by the running vertex base. -/
def cell_indices (voxels : List Voxel) (adjacents : List (List Voxel))
    (settings : MeshSettings) (width height : Nat) (x y z base : Nat) :
    Option (List Nat) :=
  match voxels.get? (wadd (wadd x (wmul y width)) (wmul (wmul z width) height)) with
  | none => none
  | some voxel =>
      if !voxel.isSolid || fully_occluded voxels x y z width height then
        none
      else
        some (((cube_indices.zip voxel_faces).filter fun p =>
            !settings.occlusion_culling ||
              check_occluded_with_adjacents voxels adjacents x y z p.2 width height).flatMap
          fun p => p.1.map fun j => j + base)

/-- Triangles contributed by one cell: a skipped cell contributes none;
an emitted cell contributes one triangle per three indices. -/
def cell_triangle_count (voxels : List Voxel) (adjacents : List (List Voxel))
    (settings : MeshSettings) (width height : Nat) (x y z base : Nat) : Nat :=
  ((cell_indices voxels adjacents settings width height x y z base).getD []).length / 3

/-- Specification-side predicate: the buffer holds a solid voxel at row-major
cell `(x, y, z)` (phrased with the same `filter`/`isSome` shape the mesher's
neighbor test uses). -/
def solid_at (voxels : List Voxel) (width height x y z : Nat) : Bool :=
  ((voxels.get? (x + y * width + z * (width * height))).filter Voxel.isSolid).isSome

/-! ### Chunk flags and per-chunk state (`src/chunk/chunk.rs`) -/

/-- Flags `ChunkFlags` as a set of independent booleans (the source stores them in
an `EnumSet<ChunkFlags>`). -/
structure ChunkFlags where
  generated : Bool
  dirty : Bool
  drawn : Bool
  busy : Bool
  meshed : Bool
deriving DecidableEq, Repr

/-- The empty flag set `enum_set!()` of `Chunk::new`. -/
def ChunkFlags.clear : ChunkFlags :=
  { generated := false, dirty := false, drawn := false, busy := false, meshed := false }

/-- The part of a `Chunk` the event pipeline claims are about: flags, the
voxel buffer, and the mesh handle (an opaque id). -/
structure ChunkState where
  flags : ChunkFlags
  voxels : List Voxel
  mesh : Option Nat
deriving DecidableEq, Repr

/-! ### Chunk registry as a map from ids to chunks (`registry.rs`) -/

/-- Struct `ChunkRegistry { chunks: HashMap<i32, Chunk> }`, modelled as an
association list keyed by chunk id. -/
abbrev ChunkRegistry := List (Int × ChunkState)

/-- Source `ChunkRegistry::get_chunk_at`: linearize, then look the id up. -/
def get_chunk_at (reg : ChunkRegistry) (c : Coordinates) : Option ChunkState :=
  (reg.find? fun p => p.1 == domain_to_id c).map fun p => p.2

/-- Writing back through `ChunkRegistry::get_chunk_at_mut`: replace the entry
whose key is the linearized id. -/
def set_chunk_at (reg : ChunkRegistry) (c : Coordinates) (ch : ChunkState) :
    ChunkRegistry :=
  reg.map fun p => if p.1 == domain_to_id c then (p.1, ch) else p

/-! ### Discovery processing (`src/chunk/events/discovery/processing.rs`) -/

/-- Enum `ProcessWriterType`: which event writer an emitted action goes to. -/
inductive ProcessAction where
  | create
  | generate
  | draw
  | mesh
deriving DecidableEq, Repr

/-- The per-coordinate closure body of `process_discovery_tasks`
(`processing.rs` lines 52–98): coordinates already in the recently-dispatched
set are suppressed; a coordinate absent from the registry emits `Create` and
returns early (bypassing the set insertion); otherwise the flag table decides
the action and, when one is emitted, the coordinate is added to the set.
The registry is a read-only `Res` here and is never modified. -/
def process_coordinate (reg : ChunkRegistry) (queue : List Coordinates)
    (c : Coordinates) : Option ProcessAction × List Coordinates :=
  let chunk := get_chunk_at reg c
  if c ∈ queue then
    (none, queue)
  else
    match chunk with
    | none => (some .create, queue)
    | some chunk =>
        let flags := chunk.flags
        let result : Option ProcessAction :=
          if flags.busy then none
          else if !flags.generated then some .generate
          else if flags.meshed && !flags.drawn then some .draw
          else if flags.dirty then some .mesh
          else none
        match result with
        | some a => (some a, c :: queue)
        | none => (none, queue)

/-- One completed discovery task's coordinate list processed in order
(`processing.rs` lines 41–107): the emitted actions, the updated
recently-dispatched set, and the registry — which is returned unchanged
because `process_discovery_tasks` only holds `Res<ChunkRegistry>`
(read access). -/
def process_discovery_step (reg : ChunkRegistry) (queue : List Coordinates)
    (coords : List Coordinates) :
    List ProcessAction × List Coordinates × ChunkRegistry :=
  let r := coords.foldl
    (fun (acc : List ProcessAction × List Coordinates) c =>
      let out := process_coordinate reg acc.2 c
      (match out.1 with
       | some a => acc.1 ++ [a]
       | none => acc.1,
       out.2))
    ([], queue)
  (r.1, r.2, reg)

/-- The decision table exactly as the specification words it
(spec §4.4): absent → Create; `Busy` → skip; not `Generated` → Generate;
`Meshed` and not `Drawn` → Draw; `Dirty` → Mesh; otherwise nothing. -/
def spec_flag_table (chunk : Option ChunkFlags) : Option ProcessAction :=
  match chunk with
  | none => some .create
  | some flags =>
      if flags.busy then none
      else if !flags.generated then some .generate
      else if flags.meshed && !flags.drawn then some .draw
      else if flags.dirty then some .mesh
      else none

/-! ### Task dispatch and result application
(`src/chunk/events/gen.rs`, `src/chunk/events/mesh.rs`) -/

/-- Source `generate_chunk` (`gen.rs` lines 22–62) handling one `ChunkGenerateEvent`:
if the chunk exists it is marked `Busy` (`chunk.set_busy(true)`) and the
generation task is spawned; a missing chunk is skipped. -/
def generate_chunk_dispatch (reg : ChunkRegistry) (c : Coordinates) :
    ChunkRegistry :=
  match get_chunk_at reg c with
  | none => reg
  | some chunk =>
      set_chunk_at reg c { chunk with flags := { chunk.flags with busy := true } }

/-- Source `mesh_chunk` (`mesh.rs` lines 24–98) handling one `ChunkMeshEvent`: if the
chunk exists it is marked `Busy` (`chunk.set_busy(true)`) and the meshing task
is spawned. -/
def mesh_chunk_dispatch (reg : ChunkRegistry) (c : Coordinates) :
    ChunkRegistry :=
  match get_chunk_at reg c with
  | none => reg
  | some chunk =>
      set_chunk_at reg c { chunk with flags := { chunk.flags with busy := true } }

/-- Source `process_chunk_generation` (`gen.rs` lines 64–87) applying one completed
generation result: `set_voxels` installs the new buffer, `set_generated(true)`
sets the flag, and a `ChunkMeshEvent` is sent (the returned coordinate).
No other flag is touched — in particular `Busy` is not cleared. -/
def process_chunk_generation_apply (reg : ChunkRegistry) (c : Coordinates)
    (voxels : List Voxel) : ChunkRegistry × Option Coordinates :=
  match get_chunk_at reg c with
  | none => (reg, none)
  | some chunk =>
      (set_chunk_at reg c
        { chunk with
          voxels := voxels
          flags := { chunk.flags with generated := true } },
       some c)

/-- Source `process_chunk_meshing` (`mesh.rs` lines 100–132) applying one completed
mesh result: `set_mesh` stores the handle and sets `Meshed`,
`set_dirty(false)` and `set_busy(false)` clear those flags, and a
`ChunkDrawEvent` is pushed (the returned coordinate). -/
def process_chunk_meshing_apply (reg : ChunkRegistry) (c : Coordinates)
    (mesh_id : Nat) : ChunkRegistry × Option Coordinates :=
  match get_chunk_at reg c with
  | none => (reg, none)
  | some chunk =>
      (set_chunk_at reg c
        { chunk with
          mesh := some mesh_id
          flags := { chunk.flags with meshed := true, dirty := false, busy := false } },
       some c)

/-! ### `Chunk::set_voxel` (`src/chunk/chunk.rs` lines 149–176) -/

/-- The state `set_voxel` acts on: the buffer, the construction-time
dimensions, and whether the `Arc` around the buffer has another live
reference (in which case `Arc::get_mut` yields `None`). -/
structure RChunk where
  voxels : List Voxel
  width : Nat
  height : Nat
  depth : Nat
  shared : Bool
deriving DecidableEq, Repr

/-- Source `Chunk::get_index`: `x + y * width + z * width * height` in `u32`. -/
def get_index (c : RChunk) (x y z : Nat) : Nat :=
  wadd (wadd x (wmul y c.width)) (wmul (wmul z c.width) c.height)

/-- Source `Chunk::set_voxel`: bounds-guarded; inside the guard, `Arc::get_mut`
silently yields nothing when the buffer is shared, and otherwise the single
cell is written (`value[index] = voxel`, which panics — modelled as `none` —
if the index were out of the buffer). -/
def set_voxel (c : RChunk) (x y z : Nat) (voxel : Voxel) : Option RChunk :=
  if x < c.width ∧ y < c.height ∧ z < c.depth then
    let index := get_index c x y z
    if c.shared then
      some c
    else if index < c.voxels.length then
      some { c with voxels := c.voxels.set index voxel }
    else
      none
  else
    some c

/-! ### Generator heat normalization (`src/chunk/generation.rs` lines 68–71,
also `src/chunk/loading/generation.rs` lines 230–236) -/

/-- Struct `GenerationSettings` (`chunk/mod.rs`); the noise parameters the heat
normalization reads, as exact rationals. -/
structure GenerationSettings where
  frequency_scale : ℚ
  amplitude_scale : ℚ
  threshold : ℚ
  octaves : Int
  persistence : ℚ
deriving DecidableEq, Repr

/-- The divisor of the heat normalization: `amplitude_scale - threshold`,
used directly with no clamping. -/
def heat_denominator (s : GenerationSettings) : ℚ :=
  s.amplitude_scale - s.threshold

/-- The heat normalization as written:
`((noise_value - threshold) / (amplitude_scale - threshold)).max(0.0).min(1.0)` —
the `max`/`min` clamp applies to the quotient, after the division. -/
def normalize_heat (s : GenerationSettings) (noise_value : ℚ) : ℚ :=
  min (max ((noise_value - s.threshold) / heat_denominator s) 0) 1

/-! ### Concrete inputs used by counterexamples and witnesses -/

/-- A solid voxel as the generator produces it. -/
def solid_voxel : Voxel := { color := ⟨0, 0, 0, 0⟩, is_solid := true, size := 1 }

/-- A fully solid 3×3×3 buffer. -/
def cube27 : List Voxel := List.replicate 27 solid_voxel

/-- An entirely empty 2×2×2 buffer. -/
def empty8 : List Voxel := List.replicate 8 Voxel.default

/-- Six all-solid 2×2×2 adjacent buffers. -/
def adj_solid : List (List Voxel) := List.replicate 6 (List.replicate 8 solid_voxel)

/-- Six all-empty 2×2×2 adjacent buffers. -/
def adj_empty : List (List Voxel) := List.replicate 6 (List.replicate 8 Voxel.default)

/-- A chunk state with only `Busy` set, as after a generation dispatch. -/
def busy_chunk : ChunkState :=
  { flags := { ChunkFlags.clear with busy := true }, voxels := [], mesh := none }

/-- A registry holding `busy_chunk` at the chunk containing `(0, 0)`. -/
def reg_busy : ChunkRegistry := [(domain_to_id ⟨0, 0⟩, busy_chunk)]

/-- A chunk state with all flags clear. -/
def fresh_chunk : ChunkState :=
  { flags := ChunkFlags.clear, voxels := [], mesh := none }

/-- A registry holding `fresh_chunk` at the chunk containing `(0, 0)`. -/
def reg_fresh : ChunkRegistry := [(domain_to_id ⟨0, 0⟩, fresh_chunk)]

/-- A small unshared 2×2×2 chunk for the `set_voxel` witness. -/
def small_chunk : RChunk :=
  { voxels := List.replicate 8 Voxel.default, width := 2, height := 2, depth := 2,
    shared := false }

end VoxelCheck

namespace VoxelCheck

/-! ### Helper lemmas -/

theorem wadd_small {a b : Nat} (h : a + b < U32LIM) : wadd a b = a + b := by
  simp [wadd, Nat.mod_eq_of_lt h]

theorem wmul_small {a b : Nat} (h : a * b < U32LIM) : wmul a b = a * b := by
  simp [wmul, Nat.mod_eq_of_lt h]

theorem wsub_one {z : Nat} (h1 : 1 ≤ z) (h2 : z < U32LIM) : wsub z 1 = z - 1 := by
  have hm : (1 : Nat) % U32LIM = 1 := by decide
  have hsplit : z + (U32LIM - 1) = (z - 1) + U32LIM := by
    have : 0 < U32LIM := by decide
    omega
  simp only [wsub, hm, hsplit]
  have hlt : z - 1 < U32LIM := by omega
  simp [Nat.add_mod_right, Nat.mod_eq_of_lt hlt]

/-- The row-major linear index is bounded by the buffer size. -/
theorem index_lt {x y z w h d : Nat} (hx : x < w) (hy : y < h) (hz : z < d) :
    x + y * w + z * (w * h) < w * h * d := by
  have step1 : x + y * w + z * (w * h) + 1 ≤ w + y * w + z * (w * h) := by omega
  have step2 : w + y * w + z * (w * h) = (1 + y) * w + z * (w * h) := by ring
  have step3 : (1 + y) * w ≤ h * w := Nat.mul_le_mul_right w (by omega)
  have step4 : h * w + z * (w * h) = (1 + z) * (w * h) := by ring
  have step5 : (1 + z) * (w * h) ≤ d * (w * h) := Nat.mul_le_mul_right (w * h) (by omega)
  have step6 : d * (w * h) = w * h * d := by ring
  omega

/-- For in-bounds neighbor coordinates the wrapped mesh index equals the
plain one. -/
theorem windex_eq {nx ny nz w h d : Nat} (hx : nx < w) (hy : ny < h)
    (hz : nz < d) (hW : w * h * d < U32LIM) :
    wadd (wadd nx (wmul ny w)) (wmul (wmul nz w) h) = nx + ny * w + nz * (w * h) := by
  have hidx : nx + ny * w + nz * (w * h) < w * h * d := index_lt hx hy hz
  have hd1 : 1 ≤ d := by omega
  have hh1 : 1 ≤ h := by omega
  have h1 : ny * w < U32LIM := by
    have : ny * w ≤ nx + ny * w + nz * (w * h) := by omega
    omega
  have hnzw : nz * w ≤ nz * (w * h) := by
    have := Nat.mul_le_mul_left nz (Nat.le_mul_of_pos_right w hh1)
    simpa [Nat.mul_assoc] using this
  have h2 : nz * w < U32LIM := by omega
  have h3 : nz * w * h < U32LIM := by
    have : nz * w * h = nz * (w * h) := by ring
    omega
  have h4 : nx + ny * w < U32LIM := by omega
  have h5 : nx + ny * w + nz * (w * h) < U32LIM := by omega
  rw [wmul_small h1, wmul_small h2, wmul_small h3, wadd_small h4]
  have : nz * w * h = nz * (w * h) := by ring
  rw [this]
  exact wadd_small h5

/-- Looking up right after writing back yields the written chunk, provided
the coordinate was present. -/
theorem get_chunk_at_set_chunk_at (reg : ChunkRegistry) (c : Coordinates)
    (ch : ChunkState) (hp : (get_chunk_at reg c).isSome) :
    get_chunk_at (set_chunk_at reg c ch) c = some ch := by
  induction reg with
  | nil => simp [get_chunk_at] at hp
  | cons p rest ih =>
      by_cases hkey : p.1 = domain_to_id c
      · simp [get_chunk_at, set_chunk_at, List.find?, hkey]
      · have hb : (p.1 == domain_to_id c) = false := by
          simp [hkey]
        have hp' : (get_chunk_at rest c).isSome := by
          simpa [get_chunk_at, List.find?, hb] using hp
        have := ih hp'
        simpa [get_chunk_at, set_chunk_at, List.find?, hb] using this

end VoxelCheck

namespace VoxelCheck

/-! ### C7 -/

/-- C7: for every `i32` chunk id, `domain_to_id (id_to_domain id) = id`. -/
theorem domain_to_id_id_to_domain (id : Int)
    (hlo : -(2 ^ 31) ≤ id) (hhi : id < 2 ^ 31) :
    domain_to_id (id_to_domain id) = id := by
  unfold domain_to_id id_to_domain CHUNK_SIZE CHUNK_GRID_SIZE
  simp only
  rw [Int.mul_tdiv_cancel _ (by norm_num), Int.mul_tdiv_cancel _ (by norm_num)]
  have h := Int.tdiv_add_tmod id 1024
  linarith

/-- Witness for C7 at the concrete id `-1025` (the chunk at `(-16, -16)`). -/
theorem domain_to_id_id_to_domain_witness :
    domain_to_id (id_to_domain (-1025)) = -1025 :=
  domain_to_id_id_to_domain (-1025) (by norm_num) (by norm_num)

/-! ### C6 -/

/-- C6 counterexample: the chunk whose id is `domain_to_id (-16, 0)` has
origin `(-16, 0)`, so `(-16, 0)` and `(-1, 0)` both lie within its 16-wide
extent per axis; yet truncating division sends them to different ids, so
`domain_to_id` is not constant on that (negative-coordinate) extent. -/
theorem domain_to_id_negative_extent_counterexample :
    id_to_domain (domain_to_id ⟨-16, 0⟩) = ⟨-16, 0⟩ ∧
      domain_to_id ⟨-16, 0⟩ ≠ domain_to_id ⟨-1, 0⟩ := by
  constructor
  · decide
  · decide

/-- C6 (amended): `domain_to_id` is constant on every chunk extent with a
nonnegative origin — for any chunk origin `(16*kx, 16*kz)` with `kx, kz ≥ 0`
and any in-extent offsets `dx, dz ∈ [0, 16)` the id is unchanged — and the
two scenario facts hold: `(0,0)` and `(1,7)` share an id while `(17,15)` and
`(15,15)` do not.  (At negative coordinates the truncating division breaks
extent-constancy, see the counterexample.) -/
theorem domain_to_id_constant_on_extent
    (kx kz dx dz : Int) (hkx : 0 ≤ kx) (hkz : 0 ≤ kz)
    (hdx0 : 0 ≤ dx) (hdx : dx < 16) (hdz0 : 0 ≤ dz) (hdz : dz < 16) :
    domain_to_id ⟨16 * kx + dx, 16 * kz + dz⟩ = domain_to_id ⟨16 * kx, 16 * kz⟩ ∧
      domain_to_id ⟨0, 0⟩ = domain_to_id ⟨1, 7⟩ ∧
      domain_to_id ⟨17, 15⟩ ≠ domain_to_id ⟨15, 15⟩ := by
  refine ⟨?_, by decide, by decide⟩
  unfold domain_to_id CHUNK_SIZE CHUNK_GRID_SIZE
  simp only
  have hx : Int.tdiv (16 * kx + dx) 16 = kx := by
    rw [Int.tdiv_eq_ediv (by positivity) (by norm_num)]
    omega
  have hz : Int.tdiv (16 * kz + dz) 16 = kz := by
    rw [Int.tdiv_eq_ediv (by positivity) (by norm_num)]
    omega
  have hx0 : Int.tdiv (16 * kx) 16 = kx := Int.mul_tdiv_cancel_left _ (by norm_num)
  have hz0 : Int.tdiv (16 * kz) 16 = kz := Int.mul_tdiv_cancel_left _ (by norm_num)
  rw [hx, hz, hx0, hz0]

/-- Witness for C6 (amended) at origin `(32, 0)` with offsets `(3, 9)`. -/
theorem domain_to_id_constant_on_extent_witness :
    domain_to_id ⟨16 * 2 + 3, 16 * 0 + 9⟩ = domain_to_id ⟨16 * 2, 16 * 0⟩ ∧
      domain_to_id ⟨0, 0⟩ = domain_to_id ⟨1, 7⟩ ∧
      domain_to_id ⟨17, 15⟩ ≠ domain_to_id ⟨15, 15⟩ :=
  domain_to_id_constant_on_extent 2 0 3 9 (by norm_num) (by norm_num)
    (by norm_num) (by norm_num) (by norm_num) (by norm_num)

/-! ### C9 -/

/-- C9: for a coordinate not suppressed by the recently-dispatched set, the
discovery processing body emits exactly the specification's flag table in its
priority order: absent → Create, `Busy` → nothing, not `Generated` →
Generate, `Meshed` and not `Drawn` → Draw, `Dirty` → Mesh, otherwise
nothing. -/
theorem process_coordinate_follows_flag_table (reg : ChunkRegistry)
    (queue : List Coordinates) (c : Coordinates) (hq : c ∉ queue) :
    (process_coordinate reg queue c).1 =
      spec_flag_table ((get_chunk_at reg c).map ChunkState.flags) := by
  unfold process_coordinate spec_flag_table
  cases hc : get_chunk_at reg c with
  | none => simp [hq, hc]
  | some chunk =>
      obtain ⟨⟨g, d, dr, b, m⟩, vs, ms⟩ := chunk
      simp only [hq, if_false, hc, Option.map_some]
      cases g <;> cases d <;> cases dr <;> cases b <;> cases m <;> simp

/-- Witness for C9: a never-seen coordinate over a registry holding an idle
generated chunk emits nothing. -/
theorem process_coordinate_follows_flag_table_witness :
    (process_coordinate reg_busy [] ⟨0, 0⟩).1 =
      spec_flag_table ((get_chunk_at reg_busy ⟨0, 0⟩).map ChunkState.flags) :=
  process_coordinate_follows_flag_table reg_busy [] ⟨0, 0⟩ (by decide)

/-! ### C3 -/

/-- C3 counterexample: discovering a present, idle, ungenerated chunk at
`(0, 0)` emits a Generate action, yet the registry after the discovery
processing step is unchanged and the chunk's `Busy` flag is still `false` —
`Busy` is not set at emission time. -/
theorem discovery_emission_leaves_busy_clear :
    (process_discovery_step reg_fresh [] [⟨0, 0⟩]).1 = [.generate] ∧
      (process_discovery_step reg_fresh [] [⟨0, 0⟩]).2.2 = reg_fresh ∧
      (get_chunk_at reg_fresh ⟨0, 0⟩).map (fun ch => ch.flags.busy) = some false := by
  refine ⟨by decide, by decide, by decide⟩

/-- C3 (amended): the discovery processing step never changes the registry
(so no flag, `Busy` included, is set at emission time — emitted coordinates
are recorded in the recently-dispatched set instead); `Busy` is set when the
task handler consuming the action dispatches the work: both `generate_chunk`
and `mesh_chunk` set it on the chunk before spawning the task. -/
theorem busy_set_at_dispatch_not_emission :
    (∀ (reg : ChunkRegistry) (queue coords : List Coordinates),
        (process_discovery_step reg queue coords).2.2 = reg) ∧
      (∀ (reg : ChunkRegistry) (c : Coordinates) (ch : ChunkState),
        get_chunk_at reg c = some ch →
          get_chunk_at (generate_chunk_dispatch reg c) c =
              some { ch with flags := { ch.flags with busy := true } } ∧
            get_chunk_at (mesh_chunk_dispatch reg c) c =
              some { ch with flags := { ch.flags with busy := true } }) := by
  constructor
  · intro reg queue coords
    simp [process_discovery_step]
  · intro reg c ch hc
    have hp : (get_chunk_at reg c).isSome := by simp [hc]
    constructor
    · unfold generate_chunk_dispatch
      rw [hc]
      exact get_chunk_at_set_chunk_at reg c _ hp
    · unfold mesh_chunk_dispatch
      rw [hc]
      exact get_chunk_at_set_chunk_at reg c _ hp

/-- Witness for C3 (amended): dispatching generation for the fresh chunk at
`(0, 0)` sets its `Busy` flag. -/
theorem busy_set_at_dispatch_not_emission_witness :
    get_chunk_at (generate_chunk_dispatch reg_fresh ⟨0, 0⟩) ⟨0, 0⟩ =
        some { fresh_chunk with
                flags := { fresh_chunk.flags with busy := true } } ∧
      get_chunk_at (mesh_chunk_dispatch reg_fresh ⟨0, 0⟩) ⟨0, 0⟩ =
        some { fresh_chunk with
                flags := { fresh_chunk.flags with busy := true } } :=
  busy_set_at_dispatch_not_emission.2 reg_fresh ⟨0, 0⟩ fresh_chunk (by decide)

/-! ### C2 -/

/-- C2 counterexample: a chunk whose `Busy` flag was set at generation
dispatch still has `Busy` set after `process_chunk_generation` applies the
completed result — the result is applied (`Generated` becomes true, the
voxels are installed) but `Busy` is not cleared, unlike after
`process_chunk_meshing`. -/
theorem generation_apply_leaves_busy_set :
    (get_chunk_at (process_chunk_generation_apply reg_busy ⟨0, 0⟩ [solid_voxel]).1
        ⟨0, 0⟩).map (fun ch => (ch.flags.busy, ch.flags.generated)) =
      some (true, true) := by
  decide

/-- C2 (amended): applying a completed generation result installs the voxels
and sets `Generated` but leaves `Busy` exactly as it was (it is not cleared
there; it is only cleared later when `process_chunk_meshing` applies the mesh
result, which sets `Meshed`, clears `Dirty` and clears `Busy`). -/
theorem generation_apply_busy_unchanged_meshing_apply_clears
    (reg : ChunkRegistry) (c : Coordinates) (ch : ChunkState)
    (vs : List Voxel) (mid : Nat) (hc : get_chunk_at reg c = some ch) :
    get_chunk_at (process_chunk_generation_apply reg c vs).1 c =
        some { ch with
               voxels := vs
               flags := { ch.flags with generated := true } } ∧
      get_chunk_at (process_chunk_meshing_apply reg c mid).1 c =
        some { ch with
               mesh := some mid
               flags := { ch.flags with meshed := true, dirty := false, busy := false } } := by
  have hp : (get_chunk_at reg c).isSome := by simp [hc]
  constructor
  · unfold process_chunk_generation_apply
    rw [hc]
    exact get_chunk_at_set_chunk_at reg c _ hp
  · unfold process_chunk_meshing_apply
    rw [hc]
    exact get_chunk_at_set_chunk_at reg c _ hp

/-- Witness for C2 (amended) on the busy chunk at `(0, 0)`. -/
theorem generation_apply_busy_unchanged_meshing_apply_clears_witness :
    get_chunk_at (process_chunk_generation_apply reg_busy ⟨0, 0⟩ [solid_voxel]).1 ⟨0, 0⟩ =
        some { busy_chunk with
               voxels := [solid_voxel]
               flags := { busy_chunk.flags with generated := true } } ∧
      get_chunk_at (process_chunk_meshing_apply reg_busy ⟨0, 0⟩ 7).1 ⟨0, 0⟩ =
        some { busy_chunk with
               mesh := some 7
               flags := { busy_chunk.flags with
                          meshed := true, dirty := false, busy := false } } :=
  generation_apply_busy_unchanged_meshing_apply_clears reg_busy ⟨0, 0⟩ busy_chunk
    [solid_voxel] 7 (by decide)

/-! ### C5 -/

/-- C5 counterexample: `Voxel::default()` has size `0.0` (the derived `f32`
default), not `1.0`, and its color is bevy's default opaque white
(`alpha = 1`), not fully transparent. -/
theorem voxel_default_size_zero_opaque :
    Voxel.default.size = 0 ∧ Voxel.default.color.a = 1 := by
  decide

/-- C5 (amended): the default Voxel that fills every newly created chunk is
indeed non-solid, but its size is `0.0` (so the `size > 0` invariant fails
for it) and its color is bevy's default opaque white; the voxel that is
non-solid, fully transparent and of size `1.0` is the generator's fill voxel,
not `Voxel::default()`. -/
theorem voxel_default_properties :
    Voxel.default.is_solid = false ∧
      Voxel.default.size = 0 ∧
      Voxel.default.color = Color.white ∧
      chunk_new_voxels 16 128 16 = List.replicate (16 * 128 * 16) Voxel.default ∧
      generation_fill_voxel.is_solid = false ∧
      generation_fill_voxel.size = 1 ∧
      generation_fill_voxel.color.a = 0 := by
  refine ⟨by decide, by decide, by decide, ?_, by decide, by decide, by decide⟩
  unfold chunk_new_voxels wmul U32LIM
  norm_num

/-! ### C8 -/

/-- C8: when `amplitude_scale == threshold` the heat normalization's divisor
`amplitude_scale - threshold` is exactly zero — nothing clamps it away from
zero; the `.max(0.0).min(1.0)` clamp is applied to the quotient, after the
division has already been performed on the zero divisor. -/
theorem heat_denominator_zero_when_amplitude_eq_threshold :
    (∀ s : GenerationSettings, s.amplitude_scale = s.threshold →
        heat_denominator s = 0) ∧
      (∀ noise_value : ℚ,
        normalize_heat
            { frequency_scale := 3 / 100, amplitude_scale := 1, threshold := 1,
              octaves := 2, persistence := 1 / 2 } noise_value =
          min (max ((noise_value - 1) / 0) 0) 1) := by
  constructor
  · intro s hs
    simp [heat_denominator, hs]
  · intro noise_value
    simp [normalize_heat, heat_denominator]

/-- Witness for C8 at `amplitude_scale = threshold = 1`. -/
theorem heat_denominator_zero_when_amplitude_eq_threshold_witness :
    heat_denominator
        { frequency_scale := 3 / 100, amplitude_scale := 1, threshold := 1,
          octaves := 2, persistence := 1 / 2 } = 0 :=
  heat_denominator_zero_when_amplitude_eq_threshold.1
    { frequency_scale := 3 / 100, amplitude_scale := 1, threshold := 1,
      octaves := 2, persistence := 1 / 2 } (by norm_num)

/-! ### C10 -/

/-- C10: `set_voxel` never panics and mutates at most the one cell at
`x + y*width + z*(width*height)`; outside the bounds guard, or when the
buffer's `Arc` has another live reference, the chunk is returned completely
unchanged and no error is reported. -/
theorem set_voxel_frame (c : RChunk) (x y z : Nat) (voxel : Voxel)
    (hlen : c.voxels.length = c.width * c.height * c.depth)
    (hW : c.width * c.height * c.depth < U32LIM) :
    ∃ c', set_voxel c x y z voxel = some c' ∧
      (∀ j, j ≠ x + y * c.width + z * (c.width * c.height) →
        c'.voxels.get? j = c.voxels.get? j) ∧
      ((¬(x < c.width ∧ y < c.height ∧ z < c.depth) ∨ c.shared = true) → c' = c) := by
  by_cases hguard : x < c.width ∧ y < c.height ∧ z < c.depth
  · obtain ⟨hx, hy, hz⟩ := hguard
    by_cases hsh : c.shared
    · refine ⟨c, ?_, fun j _ => rfl, fun _ => rfl⟩
      simp [set_voxel, hx, hy, hz, hsh]
    · have hidx : get_index c x y z = x + y * c.width + z * (c.width * c.height) :=
        windex_eq hx hy hz hW
      have hlt : get_index c x y z < c.voxels.length := by
        rw [hidx, hlen]
        exact index_lt hx hy hz
      refine ⟨{ c with voxels := c.voxels.set (get_index c x y z) voxel }, ?_, ?_, ?_⟩
      · simp [set_voxel, hx, hy, hz, hsh, hlt]
      · intro j hj
        simp only
        rw [List.get?_set_ne]
        omega
      · intro hcontra
        rcases hcontra with hcontra | hcontra
        · exact absurd ⟨hx, hy, hz⟩ hcontra
        · exact absurd hcontra hsh
  · refine ⟨c, ?_, fun j _ => rfl, fun _ => rfl⟩
    simp only [set_voxel, if_neg hguard]

/-- Witness for C10: an in-bounds write on a small unshared chunk. -/
theorem set_voxel_frame_witness :
    ∃ c', set_voxel small_chunk 1 0 1 solid_voxel = some c' ∧
      (∀ j, j ≠ 1 + 0 * small_chunk.width + 1 * (small_chunk.width * small_chunk.height) →
        c'.voxels.get? j = small_chunk.voxels.get? j) ∧
      ((¬(1 < small_chunk.width ∧ 0 < small_chunk.height ∧ 1 < small_chunk.depth) ∨
          small_chunk.shared = true) → c' = small_chunk) :=
  set_voxel_frame small_chunk 1 0 1 solid_voxel (by decide) (by decide)

/-! ### C4 -/

/-- C4: in a 2×2×2 chunk, the Back face at `z = 0` and the Front face at
`z = depth - 1` have their neighbor outside the chunk, and six adjacent
buffers are supplied; yet `check_occluded_with_adjacents` answers `true`
(face kept, neighbor treated as empty) both when every supplied adjacent
buffer is completely solid and when every one is completely empty: the guard
`nx < width && ny < height` never tests `nz`, so the z-boundary faces take
the in-chunk branch with a wrapped/out-of-range index and the adjacent
chunk's buffer is never consulted. -/
theorem check_occluded_ignores_adjacents_on_z_faces :
    check_occluded_with_adjacents empty8 adj_solid 0 0 0 .Back 2 2 = true ∧
      check_occluded_with_adjacents empty8 adj_empty 0 0 0 .Back 2 2 = true ∧
      check_occluded_with_adjacents empty8 adj_solid 0 0 1 .Front 2 2 = true ∧
      check_occluded_with_adjacents empty8 adj_empty 0 0 1 .Front 2 2 = true := by
  refine ⟨by decide, by decide, by decide, by decide⟩

/-! ### C1 -/

/-- An interior cell whose six in-chunk neighbors are all solid is fully
occluded in the mesher's sense. -/
theorem fully_occluded_of_solid_neighbors
    (voxels : List Voxel) (w h d x y z : Nat)
    (hW : w * h * d < U32LIM)
    (hx1 : 1 ≤ x) (hx2 : x + 1 < w) (hy1 : 1 ≤ y) (hy2 : y + 1 < h)
    (hz1 : 1 ≤ z) (hz2 : z + 1 < d)
    (hR : solid_at voxels w h (x + 1) y z = true)
    (hL : solid_at voxels w h (x - 1) y z = true)
    (hU : solid_at voxels w h x (y + 1) z = true)
    (hD : solid_at voxels w h x (y - 1) z = true)
    (hF : solid_at voxels w h x y (z + 1) = true)
    (hB : solid_at voxels w h x y (z - 1) = true) :
    fully_occluded voxels x y z w h = true := by
  have hw2 : 2 ≤ w := by omega
  have hh2 : 2 ≤ h := by omega
  have hd2 : 2 ≤ d := by omega
  have hwB : w < U32LIM := by
    have h1 : 1 ≤ h * d := Nat.mul_pos (by omega) (by omega)
    have hle : w ≤ w * h * d := by
      calc w = w * 1 := (Nat.mul_one w).symm
        _ ≤ w * (h * d) := Nat.mul_le_mul (le_refl w) h1
        _ = w * h * d := (mul_assoc w h d).symm
    omega
  have hhB : h < U32LIM := by
    have h1 : 1 ≤ w * d := Nat.mul_pos (by omega) (by omega)
    have hle : h ≤ w * h * d := by
      calc h = h * 1 := (Nat.mul_one h).symm
        _ ≤ h * (w * d) := Nat.mul_le_mul (le_refl h) h1
        _ = w * h * d := by ring
    omega
  have hdB : d < U32LIM := by
    have h1 : 1 ≤ w * h := Nat.mul_pos (by omega) (by omega)
    have hle : d ≤ w * h * d := by
      calc d = d * 1 := (Nat.mul_one d).symm
        _ ≤ d * (w * h) := Nat.mul_le_mul (le_refl d) h1
        _ = w * h * d := by ring
    omega
  have hxw : x < w := by omega
  have hyh : y < h := by omega
  have hzd : z < d := by omega
  unfold solid_at at hR hL hU hD hF hB
  simp only [fully_occluded, voxel_faces, List.all_cons, List.all_nil,
    Bool.and_true, Bool.and_eq_true]
  refine ⟨?_, ?_, ?_, ?_, ?_, ?_⟩
  · -- Back: neighbor (x, y, z - 1)
    simp only [get_voxel_face, face_neighbor]
    rw [if_pos ⟨hxw, hyh⟩, wsub_one hz1 (by omega), windex_eq hxw hyh (by omega) hW]
    exact hB
  · -- Right: neighbor (x + 1, y, z)
    simp only [get_voxel_face, face_neighbor]
    rw [if_pos ?_, wadd_small (a := x) (b := 1) (by omega),
      windex_eq (by omega) hyh hzd hW]
    · exact hR
    · rw [wadd_small (a := x) (b := 1) (by omega)]
      exact ⟨by omega, hyh⟩
  · -- Front: neighbor (x, y, z + 1)
    simp only [get_voxel_face, face_neighbor]
    rw [if_pos ⟨hxw, hyh⟩, wadd_small (a := z) (b := 1) (by omega),
      windex_eq hxw hyh (by omega) hW]
    exact hF
  · -- Left: neighbor (x - 1, y, z)
    simp only [get_voxel_face, face_neighbor]
    rw [if_pos ?_, wsub_one hx1 (by omega), windex_eq (by omega) hyh hzd hW]
    · exact hL
    · rw [wsub_one hx1 (by omega)]
      exact ⟨by omega, hyh⟩
  · -- Up: neighbor (x, y + 1, z)
    simp only [get_voxel_face, face_neighbor]
    rw [if_pos ?_, wadd_small (a := y) (b := 1) (by omega),
      windex_eq hxw (by omega) hzd hW]
    · exact hU
    · rw [wadd_small (a := y) (b := 1) (by omega)]
      exact ⟨hxw, by omega⟩
  · -- Down: neighbor (x, y - 1, z)
    simp only [get_voxel_face, face_neighbor]
    rw [if_pos ?_, wsub_one hy1 (by omega), windex_eq hxw (by omega) hzd hW]
    · exact hD
    · rw [wsub_one hy1 (by omega)]
      exact ⟨hxw, by omega⟩

/-- C1 (amended): a cell all of whose six face-adjacent in-chunk neighbors
are solid (an interior voxel of a fully solid cube) contributes zero
triangles whatever the value of `settings.occlusion_culling` is: the
fully-occluded skip in `mesh` runs before, and independently of, the
occlusion-culling switch, so the cell is skipped in both modes (the claim's
12-triangle branch for disabled culling does not exist). -/
theorem interior_cell_emits_zero_triangles
    (voxels : List Voxel) (adjacents : List (List Voxel))
    (settings : MeshSettings) (w h d x y z base : Nat)
    (hW : w * h * d < U32LIM)
    (hx1 : 1 ≤ x) (hx2 : x + 1 < w) (hy1 : 1 ≤ y) (hy2 : y + 1 < h)
    (hz1 : 1 ≤ z) (hz2 : z + 1 < d)
    (hR : solid_at voxels w h (x + 1) y z = true)
    (hL : solid_at voxels w h (x - 1) y z = true)
    (hU : solid_at voxels w h x (y + 1) z = true)
    (hD : solid_at voxels w h x (y - 1) z = true)
    (hF : solid_at voxels w h x y (z + 1) = true)
    (hB : solid_at voxels w h x y (z - 1) = true) :
    cell_indices voxels adjacents settings w h x y z base = none ∧
      cell_triangle_count voxels adjacents settings w h x y z base = 0 := by
  have hfo : fully_occluded voxels x y z w h = true :=
    fully_occluded_of_solid_neighbors voxels w h d x y z hW hx1 hx2 hy1 hy2 hz1 hz2
      hR hL hU hD hF hB
  have hnone : cell_indices voxels adjacents settings w h x y z base = none := by
    unfold cell_indices
    cases hcell :
        voxels.get? (wadd (wadd x (wmul y w)) (wmul (wmul z w) h)) with
    | none => rfl
    | some voxel => simp [hfo]
  exact ⟨hnone, by simp [cell_triangle_count, hnone]⟩

/-- Witness for C1 (amended): the center of a fully solid 3×3×3 buffer with
occlusion culling enabled contributes zero triangles. -/
theorem interior_cell_emits_zero_triangles_witness :
    cell_indices cube27 [] { occlusion_culling := true } 3 3 1 1 1 0 = none ∧
      cell_triangle_count cube27 [] { occlusion_culling := true } 3 3 1 1 1 0 = 0 :=
  interior_cell_emits_zero_triangles cube27 [] { occlusion_culling := true }
    3 3 3 1 1 1 0 (by decide) (by decide) (by decide) (by decide) (by decide)
    (by decide) (by decide) (by decide) (by decide) (by decide) (by decide)
    (by decide) (by decide)

/-- C1 counterexample: at the center of a fully solid 3×3×3 buffer with
`occlusion_culling` DISABLED, the loop body of `mesh` still contributes zero
triangles, not the 12 the claim requires: the fully-occluded `continue` is
unconditional. -/
theorem interior_cell_zero_triangles_culling_disabled :
    cell_triangle_count cube27 [] { occlusion_culling := false } 3 3 1 1 1 0 = 0 := by
  decide

end VoxelCheck
